import Mathlib

/-!
Shallow embedding of the BrainFish chess-engine core
(src/engine/brainfish-cpp/src/engine.cpp, engine.hpp, main.cpp).

The C++ `Engine` holds, behind a PIMPL boundary, a boolean flag
`initialized_` and an `std::unordered_map<std::string, std::string>`
`opening_book_`.  We model the map as an association list with
unique keys and overwrite-on-insert, the flag as a `Bool`, and each
C++ method as a state-passing function `Engine → args → result × Engine`
(methods that never mutate return the input state unchanged, exactly as
the C++ bodies do).  Because `initialize` is a reserved token for the
verification toolchain, the method `Engine::initialize` is embedded
under the name `Engine.initEngine`, the field `initialized_` under the
name `inited`, and the private helper `Engine::initializeOpeningBook`
under the name `seedOpeningBook`; their bodies are line-for-line
translations of the C++ source.
-/

namespace Brainfish

/-- Model of `std::unordered_map::find` on the book: first binding whose
key equals `k`, as an `Option`.  Keys are unique in every book reachable
through the API, so "first" is immaterial. -/
def bookFind : List (String × String) → String → Option String
  | [], _ => none
  | (k', v') :: rest, k => if k' = k then some v' else bookFind rest k

/-- Model of `opening_book_[fen] = move` (`operator[]` + assignment):
overwrite the binding for `k` if present, otherwise append it. -/
def bookInsert : List (String × String) → String → String → List (String × String)
  | [], k, v => [(k, v)]
  | (k', v') :: rest, k, v =>
    if k' = k then (k, v) :: rest else (k', v') :: bookInsert rest k v

/-- The engine state: the C++ `Engine::Implementation` members.
`inited` models the member `initialized_` (the name is shortened for the
toolchain), `opening_book` models `opening_book_`. -/
structure Engine where
  inited : Bool
  opening_book : List (String × String)
deriving DecidableEq

/-- A freshly constructed engine: `Implementation() : initialized_(false)`
with an empty map. -/
def Engine.new : Engine := ⟨false, []⟩

/-- `Engine::validateFEN`: `!fen.empty() && fen.find('/') != std::string::npos`.
Expressed over the character list of the string: the string is nonempty and
some character is '/'. -/
def validateFEN (fen : String) : Bool :=
  !fen.data.isEmpty && fen.data.contains '/'

/-- `Engine::initializeOpeningBook` (renamed for the toolchain): seeds the
book with the standard starting position mapped to "e2e4". -/
def seedOpeningBook (book : List (String × String)) : List (String × String) :=
  bookInsert book "rnbqkbnr/pppppppp/8/8/8/8/PPPPPPPP/RNBQKBNR w KQkq - 0 1" "e2e4"

/-- `Engine::initialize` (renamed `initEngine` for the toolchain): if already
flagged, return `true` with no change; otherwise seed the book and set the
flag.  The C++ `catch` branch is unreachable in the model because map
assignment cannot fail. -/
def Engine.initEngine (e : Engine) (config_path : String) : Bool × Engine :=
  if e.inited then (true, e)
  else (true, { inited := true, opening_book := seedOpeningBook e.opening_book })

/-- The whitespace class of `std::istream` extraction (`std::isspace` in the
default locale): space, tab, newline, vertical tab, form feed, carriage
return. -/
def isStreamSpace (c : Char) : Bool :=
  c = ' ' || c = '\t' || c = '\n' || c = '\x0b' || c = '\x0c' || c = '\r'

/-- The effect of `std::istringstream iss(command); iss >> cmd`: skip leading
whitespace, then take the maximal run of non-whitespace characters (empty
when the line has no token, matching the default-constructed `cmd`). -/
def firstToken (s : String) : String :=
  ⟨(s.data.dropWhile isStreamSpace).takeWhile (fun c => !isStreamSpace c)⟩

/-- `Engine::processCommand`: lifecycle gate, then dispatch on the first
whitespace-delimited token.  The method never mutates, so the returned
state is the input state. -/
def Engine.processCommand (e : Engine) (command : String) : String × Engine :=
  let resp :=
    if !e.inited then "error engine not initialized"
    else
      let cmd := firstToken command
      if cmd = "uci" then "id name BrainFish\nid author BlackBoxAI\nuciok\n"
      else if cmd = "isready" then "readyok\n"
      else if cmd = "quit" then "quit\n"
      else "unknown command\n"
  (resp, e)

/-- `Engine::analyzePosition`: lifecycle gate, FEN gate, then the placeholder
info line with the requested depth (`std::to_string(depth)` on the C++
`int`, modelled as `Int`). -/
def Engine.analyzePosition (e : Engine) (fen : String) (depth : Int) : String × Engine :=
  let resp :=
    if !e.inited then "error engine not initialized"
    else if !validateFEN fen then "error invalid fen"
    else "info depth " ++ toString depth ++ " score cp 100 pv e2e4 e7e5\n"
  (resp, e)

/-- `Engine::queryOpeningBook`: exact-key lookup, empty string on miss.
Pure: no gate, no mutation. -/
def Engine.queryOpeningBook (e : Engine) (fen : String) : String :=
  match bookFind e.opening_book fen with
  | some m => m
  | none => ""

/-- `Engine::getBestMove`, parametrised by the search adapter so that
independence from the search path is expressible.  Lifecycle gate, FEN
gate, book lookup; only on an empty book answer does control reach
`search`. -/
def getBestMoveWith (search : String → Int → String) (e : Engine)
    (fen : String) (time_ms : Int) : String × Engine :=
  let resp :=
    if !e.inited then "error engine not initialized"
    else if !validateFEN fen then "error invalid fen"
    else
      let book_move := e.queryOpeningBook fen
      if !book_move.data.isEmpty then "bestmove " ++ book_move ++ "\n"
      else "bestmove " ++ search fen time_ms ++ "\n"
  (resp, e)

/-- The placeholder search of the C++ source: always "e2e4" (the
`// TODO` branch of `Engine::getBestMove`). -/
def searchAdapterPlaceholder (fen : String) (time_ms : Int) : String :=
  "e2e4"

/-- `Engine::getBestMove` exactly as in the source: book first, placeholder
search on a miss. -/
def Engine.getBestMove (e : Engine) (fen : String) (time_ms : Int) : String × Engine :=
  getBestMoveWith searchAdapterPlaceholder e fen time_ms

/-- `Engine::updateOpeningBook`: FEN gate only (no lifecycle gate in the
source), then unconditional overwrite. -/
def Engine.updateOpeningBook (e : Engine) (fen move : String) : Bool × Engine :=
  if !validateFEN fen then (false, e)
  else (true, { e with opening_book := bookInsert e.opening_book fen move })

/-- The `main` loop of main.cpp: read a line, respond via `processCommand`,
emit the response, and stop after the line whose raw text is "quit".
The returned list is the sequence of emitted responses. -/
def protocolSession : Engine → List String → List String
  | _, [] => []
  | e, line :: rest =>
    let r := e.processCommand line
    if line = "quit" then [r.1]
    else r.1 :: protocolSession r.2 rest

/-! ### Helper lemmas -/

/-- Lookup after overwrite-insert: the inserted key now maps to the new
value, every other key is untouched. -/
theorem bookFind_bookInsert (b : List (String × String)) (k v q : String) :
    bookFind (bookInsert b k v) q = if q = k then some v else bookFind b q := by
  induction b with
  | nil =>
    by_cases hq : q = k
    · simp [bookInsert, bookFind, hq]
    · simp [bookInsert, bookFind, hq, Ne.symm hq]
  | cons hd tl ih =>
    obtain ⟨k', v'⟩ := hd
    by_cases hk : k' = k
    · subst hk
      by_cases hq : q = k'
      · simp [bookInsert, bookFind, hq]
      · simp [bookInsert, bookFind, hq, Ne.symm hq]
    · by_cases hq : q = k'
      · subst hq
        simp [bookInsert, bookFind, hk, Ne.symm hk]
      · simp [bookInsert, bookFind, hk, hq, Ne.symm hq, ih]

/-- A nonempty string has an empty-check of `false` on its character list. -/
theorem isEmpty_false_of_ne (s : String) (h : s ≠ "") : s.data.isEmpty = false := by
  obtain ⟨l⟩ := s
  cases l with
  | nil => exact absurd rfl h
  | cons c cs => rfl

/-- The validation gate fails exactly on the strings the spec excludes. -/
theorem validateFEN_eq_false (p : String) (hp : p = "" ∨ p.data.contains '/' = false) :
    validateFEN p = false := by
  rcases hp with h | h
  · subst h; rfl
  · unfold validateFEN
    rw [h, Bool.and_false]

/-- The dispatcher never mutates: its returned state is its input state. -/
theorem processCommand_snd (e : Engine) (c : String) : (e.processCommand c).2 = e := rfl

/-- The engine obtained from a fresh construction followed by one successful
initialization; the reference state for the concrete scenarios. -/
def readyEngine : Engine := (Engine.new.initEngine "").2

/-- The session emits one response per line and stops nowhere when no raw
line equals "quit". -/
theorem protocolSession_no_quit (e : Engine) :
    ∀ lines : List String, "quit" ∉ lines →
      protocolSession e lines = lines.map (fun l => (e.processCommand l).1) := by
  intro lines
  induction lines with
  | nil => intro _; rfl
  | cons l rest ih =>
    intro h
    rw [List.mem_cons, not_or] at h
    obtain ⟨h1, h2⟩ := h
    have hl : ¬ l = "quit" := fun hc => h1 hc.symm
    simp [protocolSession, hl, processCommand_snd, ih h2]

/-- The session run on `pre ++ "quit" :: rest` with no "quit" in `pre`
answers every line of `pre` in order, answers the "quit" line, and never
touches `rest`. -/
theorem protocolSession_until_quit (e : Engine) (hinit : e.inited = true) :
    ∀ pre rest : List String, "quit" ∉ pre →
      protocolSession e (pre ++ "quit" :: rest) =
        pre.map (fun l => (e.processCommand l).1) ++ ["quit\n"] := by
  have hq : (e.processCommand "quit").1 = "quit\n" := by
    have h1 : firstToken "quit" = "quit" := by decide
    have h2 : ("quit" : String) ≠ "uci" := by decide
    have h3 : ("quit" : String) ≠ "isready" := by decide
    simp [Engine.processCommand, hinit, h1, h2, h3]
  intro pre
  induction pre with
  | nil =>
    intro rest _
    simp [protocolSession, hq]
  | cons l pre' ih =>
    intro rest hpre
    rw [List.mem_cons, not_or] at hpre
    obtain ⟨h1, h2⟩ := hpre
    have hl : ¬ l = "quit" := fun hc => h1 hc.symm
    simp [protocolSession, hl, processCommand_snd, ih rest h2]

/-! ### The claims -/

/-- Claim C1: before any successful initialization, each of
`processCommand`, `analyzePosition` and `getBestMove` returns exactly
"error engine not initialized" and leaves the whole engine state —
in particular the opening book — unchanged. -/
theorem claim1_lifecycle_gate (e : Engine) (c fen : String) (d t : Int)
    (h : e.inited = false) :
    e.processCommand c = ("error engine not initialized", e) ∧
    e.analyzePosition fen d = ("error engine not initialized", e) ∧
    e.getBestMove fen t = ("error engine not initialized", e) := by
  refine ⟨?_, ?_, ?_⟩ <;>
    simp [Engine.processCommand, Engine.analyzePosition, Engine.getBestMove,
      getBestMoveWith, h]

/-- Witness for C1 at the fresh engine. -/
theorem claim1_lifecycle_gate_witness :
    Engine.new.inited = false ∧
    (Engine.new.processCommand "uci" = ("error engine not initialized", Engine.new) ∧
     Engine.new.analyzePosition "8/8" 20 = ("error engine not initialized", Engine.new) ∧
     Engine.new.getBestMove "8/8" 1000 = ("error engine not initialized", Engine.new)) :=
  ⟨rfl, claim1_lifecycle_gate Engine.new "uci" "8/8" 20 1000 rfl⟩

/-- Claim C2 counterexample: the book may hold an EMPTY move for a key
(inserted through `updateOpeningBook`, which never validates moves); on
that entry `getBestMove` does not return "bestmove " ++ m ++ "\n" — the
empty answer falls through to the placeholder search. -/
theorem claim2_book_hit_counterexample :
    ((readyEngine.updateOpeningBook "8/8" "").2.inited = true ∧
     validateFEN "8/8" = true ∧
     bookFind (readyEngine.updateOpeningBook "8/8" "").2.opening_book "8/8" = some "" ∧
     ((readyEngine.updateOpeningBook "8/8" "").2.getBestMove "8/8" 1000).1 ≠
       "bestmove " ++ "" ++ "\n") := by
  refine ⟨by decide, by decide, by decide, by decide⟩

/-- Claim C2 (amended): for a Ready engine, a valid position `p`, and a
NON-EMPTY book entry `m` under key `p`, `getBestMove` returns exactly
"bestmove " ++ m ++ "\n" for every time budget and for EVERY search
adapter — so the search path is never consulted on such a book hit —
and the state is unchanged. -/
theorem claim2_book_hit (search : String → Int → String) (e : Engine)
    (p m : String) (t : Int) (hinit : e.inited = true)
    (hval : validateFEN p = true) (hm : bookFind e.opening_book p = some m)
    (hne : m ≠ "") :
    getBestMoveWith search e p t = ("bestmove " ++ m ++ "\n", e) := by
  have hq : e.queryOpeningBook p = m := by
    unfold Engine.queryOpeningBook
    rw [hm]
  have hne' := isEmpty_false_of_ne m hne
  simp [getBestMoveWith, hinit, hval, Engine.queryOpeningBook, hm, hne']

/-- Witness for the amended C2: a book entry written through the API is
returned verbatim, with a search adapter that would answer differently. -/
theorem claim2_book_hit_witness :
    ((readyEngine.updateOpeningBook "8/8" "d1d2").2.inited = true ∧
     validateFEN "8/8" = true ∧
     bookFind (readyEngine.updateOpeningBook "8/8" "d1d2").2.opening_book "8/8" = some "d1d2" ∧
     ("d1d2" : String) ≠ "" ∧
     getBestMoveWith (fun _ _ => "zzzz") (readyEngine.updateOpeningBook "8/8" "d1d2").2 "8/8" 500 =
       ("bestmove d1d2\n", (readyEngine.updateOpeningBook "8/8" "d1d2").2)) :=
  ⟨by decide, by decide, by decide, by decide,
   claim2_book_hit (fun _ _ => "zzzz") (readyEngine.updateOpeningBook "8/8" "d1d2").2
     "8/8" "d1d2" 500 (by decide) (by decide) (by decide) (by decide)⟩

/-- Claim C3: after successful initialization, a position that is empty or
has no rank separator is rejected by `analyzePosition` and `getBestMove`
with "error invalid fen" and by `updateOpeningBook` with `false`, and none
of the three touches the state (so the book is not mutated). -/
theorem claim3_validation_gate (e : Engine) (p m : String) (d t : Int)
    (hinit : e.inited = true) (hp : p = "" ∨ p.data.contains '/' = false) :
    e.analyzePosition p d = ("error invalid fen", e) ∧
    e.getBestMove p t = ("error invalid fen", e) ∧
    e.updateOpeningBook p m = (false, e) := by
  have hv := validateFEN_eq_false p hp
  refine ⟨?_, ?_, ?_⟩ <;>
    simp [Engine.analyzePosition, Engine.getBestMove, getBestMoveWith,
      Engine.updateOpeningBook, hinit, hv]

/-- Witness for C3 at "nofences". -/
theorem claim3_validation_gate_witness :
    readyEngine.inited = true ∧
    (("nofences" : String) = "" ∨ ("nofences" : String).data.contains '/' = false) ∧
    (readyEngine.analyzePosition "nofences" 20 = ("error invalid fen", readyEngine) ∧
     readyEngine.getBestMove "nofences" 1000 = ("error invalid fen", readyEngine) ∧
     readyEngine.updateOpeningBook "nofences" "e2e4" = (false, readyEngine)) :=
  ⟨by decide, Or.inr (by decide),
   claim3_validation_gate readyEngine "nofences" "e2e4" 20 1000 (by decide) (Or.inr (by decide))⟩

/-- Claim C4: initialization is idempotent — from any state two consecutive
calls both return `true` and the second call changes nothing, so the book
after the second call is the book after the first. -/
theorem claim4_idempotent_init (e : Engine) (cfg1 cfg2 : String) :
    (e.initEngine cfg1).1 = true ∧
    ((e.initEngine cfg1).2.initEngine cfg2).1 = true ∧
    ((e.initEngine cfg1).2.initEngine cfg2).2 = (e.initEngine cfg1).2 := by
  cases h : e.inited <;> simp [Engine.initEngine, h]

/-- Claim C5: the book upsert is last-write-wins — after writing `m1` then
`m2` under the same valid key `p`, the query at `p` answers `m2`, and the
binding of every other key `q` is exactly what it was before. -/
theorem claim5_upsert_overwrite (e : Engine) (p m1 m2 q : String)
    (hp : validateFEN p = true) (hq : q ≠ p) :
    ((e.updateOpeningBook p m1).2.updateOpeningBook p m2).2.queryOpeningBook p = m2 ∧
    bookFind ((e.updateOpeningBook p m1).2.updateOpeningBook p m2).2.opening_book q =
      bookFind e.opening_book q := by
  constructor
  · simp [Engine.updateOpeningBook, hp, Engine.queryOpeningBook, bookFind_bookInsert]
  · simp [Engine.updateOpeningBook, hp, bookFind_bookInsert, hq]

/-- Witness for C5: overwrite "a" by "b" under "8/8" leaves "9/9" alone. -/
theorem claim5_upsert_overwrite_witness :
    validateFEN "8/8" = true ∧ ("9/9" : String) ≠ "8/8" ∧
    (((Engine.new.updateOpeningBook "8/8" "a").2.updateOpeningBook "8/8" "b").2.queryOpeningBook
        "8/8" = "b" ∧
     bookFind ((Engine.new.updateOpeningBook "8/8" "a").2.updateOpeningBook
         "8/8" "b").2.opening_book "9/9" = bookFind Engine.new.opening_book "9/9") :=
  ⟨by decide, by decide,
   claim5_upsert_overwrite Engine.new "8/8" "a" "b" "9/9" (by decide) (by decide)⟩

/-- Claim C6 counterexample: `updateOpeningBook` carries NO lifecycle gate
in the source — on a fresh (uninitialized) engine it returns `true` and
mutates the opening book, contradicting "does not succeed and does not
mutate". -/
theorem claim6_uninit_counterexample :
    Engine.new.inited = false ∧
    (Engine.new.updateOpeningBook "8/8" "e2e4").1 = true ∧
    (Engine.new.updateOpeningBook "8/8" "e2e4").2.opening_book ≠ Engine.new.opening_book := by
  refine ⟨by decide, by decide, by decide⟩

/-- Claim C6 (amended): while Uninitialized the three command operations
(`processCommand`, `analyzePosition`, `getBestMove`) are disabled — each
answers the not-initialized error — but `updateOpeningBook` is NOT
lifecycle-gated: even before any successful initialization it returns
`true` on a valid position and overwrites the book at that key. -/
theorem claim6_uninit_book_write (e : Engine) (c fen p m : String) (d t : Int)
    (h : e.inited = false) (hp : validateFEN p = true) :
    (e.processCommand c).1 = "error engine not initialized" ∧
    (e.analyzePosition fen d).1 = "error engine not initialized" ∧
    (e.getBestMove fen t).1 = "error engine not initialized" ∧
    e.updateOpeningBook p m =
      (true, { e with opening_book := bookInsert e.opening_book p m }) := by
  refine ⟨?_, ?_, ?_, ?_⟩ <;>
    simp [Engine.processCommand, Engine.analyzePosition, Engine.getBestMove,
      getBestMoveWith, Engine.updateOpeningBook, h, hp]

/-- Witness for the amended C6 at the fresh engine. -/
theorem claim6_uninit_book_write_witness :
    Engine.new.inited = false ∧ validateFEN "8/8" = true ∧
    ((Engine.new.processCommand "uci").1 = "error engine not initialized" ∧
     (Engine.new.analyzePosition "8/8" 20).1 = "error engine not initialized" ∧
     (Engine.new.getBestMove "8/8" 1000).1 = "error engine not initialized" ∧
     Engine.new.updateOpeningBook "8/8" "e2e4" =
       (true, { Engine.new with
                  opening_book := bookInsert Engine.new.opening_book "8/8" "e2e4" })) :=
  ⟨by decide, by decide,
   claim6_uninit_book_write Engine.new "uci" "8/8" "8/8" "e2e4" 20 1000 (by decide) (by decide)⟩

/-- Claim C7: after successful initialization, any line whose first
whitespace-delimited token is none of "uci", "isready", "quit" — the empty
line included — gets exactly "unknown command\n", with the state (flag and
book) unchanged. -/
theorem claim7_unknown_command (e : Engine) (c : String) (hinit : e.inited = true)
    (h1 : firstToken c ≠ "uci") (h2 : firstToken c ≠ "isready")
    (h3 : firstToken c ≠ "quit") :
    e.processCommand c = ("unknown command\n", e) := by
  simp [Engine.processCommand, hinit, h1, h2, h3]

/-- Witness for C7 at "whatever". -/
theorem claim7_unknown_command_witness :
    readyEngine.inited = true ∧
    firstToken "whatever" ≠ "uci" ∧ firstToken "whatever" ≠ "isready" ∧
    firstToken "whatever" ≠ "quit" ∧
    readyEngine.processCommand "whatever" = ("unknown command\n", readyEngine) :=
  ⟨by decide, by decide, by decide, by decide,
   claim7_unknown_command readyEngine "whatever" (by decide) (by decide) (by decide) (by decide)⟩

/-- Claim C8: the session answers lines strictly in order and stops exactly
after the first raw line "quit" (whose response is still emitted, the
remainder never processed); with no "quit" line every line is answered; and
a line "quit now" gets the Engine response "quit\n" yet does NOT stop the
session. -/
theorem claim8_session_termination (e : Engine) (pre rest lines : List String)
    (hinit : e.inited = true) (hpre : "quit" ∉ pre) (hl : "quit" ∉ lines) :
    protocolSession e (pre ++ "quit" :: rest) =
      pre.map (fun l => (e.processCommand l).1) ++ ["quit\n"] ∧
    protocolSession e lines = lines.map (fun l => (e.processCommand l).1) ∧
    (e.processCommand "quit now").1 = "quit\n" ∧
    protocolSession e ["quit now", "isready"] = ["quit\n", "readyok\n"] := by
  have hqn : (e.processCommand "quit now").1 = "quit\n" := by
    have h1 : firstToken "quit now" = "quit" := by decide
    have h2 : ("quit" : String) ≠ "uci" := by decide
    have h3 : ("quit" : String) ≠ "isready" := by decide
    simp [Engine.processCommand, hinit, h1, h2, h3]
  have hir : (e.processCommand "isready").1 = "readyok\n" := by
    have h1 : firstToken "isready" = "isready" := by decide
    have h2 : ("isready" : String) ≠ "uci" := by decide
    simp [Engine.processCommand, hinit, h1, h2]
  refine ⟨protocolSession_until_quit e hinit pre rest hpre,
          protocolSession_no_quit e lines hl, hqn, ?_⟩
  have ha : ¬ ("quit now" : String) = "quit" := by decide
  have hb : ¬ ("isready" : String) = "quit" := by decide
  simp [protocolSession, ha, hb, processCommand_snd, hqn, hir]

/-- Witness for C8 on the session ["uci", "quit", "isready"]. -/
theorem claim8_session_termination_witness :
    readyEngine.inited = true ∧ ("quit" ∉ (["uci"] : List String)) ∧
    ("quit" ∉ (["isready"] : List String)) ∧
    (protocolSession readyEngine (["uci"] ++ "quit" :: ["isready"]) =
       (["uci"] : List String).map (fun l => (readyEngine.processCommand l).1) ++ ["quit\n"] ∧
     protocolSession readyEngine ["isready"] =
       (["isready"] : List String).map (fun l => (readyEngine.processCommand l).1) ∧
     (readyEngine.processCommand "quit now").1 = "quit\n" ∧
     protocolSession readyEngine ["quit now", "isready"] = ["quit\n", "readyok\n"]) :=
  ⟨by decide, by decide, by decide,
   claim8_session_termination readyEngine ["uci"] ["isready"] ["isready"]
     (by decide) (by decide) (by decide)⟩

/-- Claim C9: after a successful initialization from fresh, the opening
book is seeded — it maps the standard starting position to "e2e4" — and
`getBestMove` on that position answers "bestmove e2e4\n" as a book hit:
the same answer comes back for EVERY search adapter, so it is the seeded
entry and not the search placeholder that produces it.  The "uci"
command's response contains "uciok\n". -/
theorem claim9_seeded_scenario (search : String → Int → String) :
    bookFind readyEngine.opening_book
        "rnbqkbnr/pppppppp/8/8/8/8/PPPPPPPP/RNBQKBNR w KQkq - 0 1" = some "e2e4" ∧
    getBestMoveWith search readyEngine
        "rnbqkbnr/pppppppp/8/8/8/8/PPPPPPPP/RNBQKBNR w KQkq - 0 1" 1000 =
      ("bestmove e2e4\n", readyEngine) ∧
    (readyEngine.getBestMove
        "rnbqkbnr/pppppppp/8/8/8/8/PPPPPPPP/RNBQKBNR w KQkq - 0 1" 1000).1 =
      "bestmove e2e4\n" ∧
    (∃ a b : String, (readyEngine.processCommand "uci").1 = a ++ "uciok\n" ++ b) := by
  have h1 : readyEngine.inited = true := by decide
  have h2 : validateFEN "rnbqkbnr/pppppppp/8/8/8/8/PPPPPPPP/RNBQKBNR w KQkq - 0 1" = true := by
    decide
  have h3 : readyEngine.queryOpeningBook
      "rnbqkbnr/pppppppp/8/8/8/8/PPPPPPPP/RNBQKBNR w KQkq - 0 1" = "e2e4" := by decide
  have h4 : ("e2e4" : String).data.isEmpty = false := by decide
  have h5 : ("bestmove " ++ "e2e4" ++ "\n" : String) = "bestmove e2e4\n" := by decide
  refine ⟨by decide, ?_, by decide,
    ⟨"id name BrainFish\nid author BlackBoxAI\n", "", by decide⟩⟩
  simp [getBestMoveWith, h1, h2, h3, h4, h5]

/-- Claim C10: after successful initialization, on every position that
passes validation `analyzePosition` answers the constant info line
"info depth <d> score cp 100 pv e2e4 e7e5\n" — the score and principal
variation are fixed and the answer depends only on the depth, never on the
position's content. -/
theorem claim10_analyze_placeholder (e : Engine) (p : String) (d : Int)
    (hinit : e.inited = true) (hval : validateFEN p = true) :
    e.analyzePosition p d =
      ("info depth " ++ toString d ++ " score cp 100 pv e2e4 e7e5\n", e) := by
  simp [Engine.analyzePosition, hinit, hval]

/-- Witness for C10 at depth 20. -/
theorem claim10_analyze_placeholder_witness :
    readyEngine.inited = true ∧ validateFEN "8/8" = true ∧
    readyEngine.analyzePosition "8/8" 20 =
      ("info depth " ++ toString (20 : Int) ++ " score cp 100 pv e2e4 e7e5\n", readyEngine) :=
  ⟨by decide, by decide, claim10_analyze_placeholder readyEngine "8/8" 20 (by decide) (by decide)⟩

end Brainfish
